import Mathlib

/-!
Shallow embedding of the event-driven digital I/O control subsystem of the
esp32-rust-template repository: the debounced button input
(src/peripherals/button.rs), the LED actuator set (src/peripherals/led.rs),
the retry-with-backoff helper (src/utils/error_handler.rs), the uptime timer
(src/utils/time_utils.rs) and the main control loop (src/main.rs).

Conventions of the embedding:
- A raw digital level is a Bool; true is the "pressed" / asserted level
  (in the source, button.is_low() returns true when the pull-up line is
  pulled low, i.e. pressed), false is released / deasserted.
- Rust Result<T, anyhow::Error> becomes Except String T; the error payload
  is the message built by the anyhow! call at the corresponding map_err.
- Hardware effects are passed in explicitly: a fallible pin read becomes an
  Except String Bool input, a fallible pin write becomes a fault predicate
  (Bool -> Bool) telling whether writing a given level fails, the clock
  becomes an explicit Nat argument (milliseconds of uptime).
- Machine integers are Nat; where u32 overflow can matter (the doubling of
  the backoff delay) the operation is taken mod 2^32, matching release-mode
  wrapping semantics.
-/

deriving instance DecidableEq for Except

namespace Esp32

/-! ### Button (src/peripherals/button.rs)

The mutable state of ButtonController that the polling logic touches is the
single field last_state : Bool.  debounce_time and last_press_time are
stored but never read by is_pressed, so they are omitted here. -/

/-- Embedding of ButtonController::is_pressed (button.rs lines 38-53).
The raw hardware read self.button.is_low() is passed in as an
Except String Bool; its driver error is mapped to the anyhow message.
Returns the Result the function returns, paired with the new value of
self.last_state. -/
def is_pressed (read : Except String Bool) (last_state : Bool) :
    Except String Bool × Bool :=
  match read with
  | .error _ => (.error "Button state reading failed", last_state)
  | .ok current_state =>
      if current_state != last_state then
        (.ok current_state, current_state)
      else
        (.ok false, last_state)

/-- Feed a list of raw levels (all hardware reads succeeding) to successive
calls of is_pressed, starting from a given last_state.  Returns the list of
returned Results and the final last_state. -/
def pollSeq : List Bool → Bool → List (Except String Bool) × Bool
  | [], last_state => ([], last_state)
  | l :: ls, last_state =>
      let p := is_pressed (.ok l) last_state
      let r := pollSeq ls p.2
      (p.1 :: r.1, r.2)

/-! ### LED actuator set (src/peripherals/led.rs)

The physical state of the two output pins.  A write fault model
(f : Bool → Bool) says whether driving the pin to a given level fails
(set_high / set_low returning Err); a failed write leaves the pin level
unchanged. -/

structure LedState where
  led1 : Bool
  led2 : Bool
deriving DecidableEq, Repr

/-- Embedding of LedController::set_led1 (led.rs lines 33-42). -/
def set_led1 (f1 : Bool → Bool) (st : LedState) (state : Bool) :
    Except String Unit × LedState :=
  if f1 state then (.error "LED1 state setting failed", st)
  else (.ok (), { st with led1 := state })

/-- Embedding of LedController::set_led2 (led.rs lines 45-54). -/
def set_led2 (f2 : Bool → Bool) (st : LedState) (state : Bool) :
    Except String Unit × LedState :=
  if f2 state then (.error "LED2 state setting failed", st)
  else (.ok (), { st with led2 := state })

/-- Embedding of LedController::set_state (led.rs lines 57-61):
set_led1(state)?; set_led2(state)?; Ok(()).  The ? operator stops at the
first error, keeping the state mutations already performed. -/
def set_state (f1 f2 : Bool → Bool) (st : LedState) (state : Bool) :
    Except String Unit × LedState :=
  match set_led1 f1 st state with
  | (.error e, st1) => (.error e, st1)
  | (.ok _, st1) =>
      match set_led2 f2 st1 state with
      | (.error e, st2) => (.error e, st2)
      | (.ok _, st2) => (.ok (), st2)

/-- Embedding of LedController::get_led1_state (led.rs lines 82-88):
hardware read-back of the pin level (the successful-read value). -/
def get_led1_state (st : LedState) : Bool := st.led1

/-- Embedding of LedController::get_led2_state (led.rs lines 91-97). -/
def get_led2_state (st : LedState) : Bool := st.led2

/-! ### Retry with exponential backoff (src/utils/error_handler.rs)

retry_with_backoff takes a FnMut operation; the result of its i-th call
(0-indexed) is given by op i.  Beyond the Result the Rust function returns,
the embedding also returns the number of invocations performed and the list
of delays passed to FreeRtos::delay_ms, so that the claims about attempt
counts and sleep schedules can be stated. -/

/-- The loop body of retry_with_backoff (error_handler.rs lines 51-68).
attempt is the value of the Rust attempt counter before the current call of
the operation, so the current call is op attempt; delay_ms is the current
delay and sleeps the delays recorded so far.  The loop's stopping test is
attempt + 1 ≥ max_attempts after a failure; rem is the number of further
failures the test still allows, i.e. rem = max_attempts - attempt - 1
(truncated subtraction), kept explicitly so that the recursion is
structural.  rem = 0 means a failure now is propagated; otherwise the
function sleeps delay_ms and doubles the delay (u32 wrapping multiplication,
hence mod 2^32).  At return, the attempt counter (second component) equals
the number of invocations performed. -/
def retryGo {A : Type} (op : Nat → Except String A)
    (attempt delay_ms rem : Nat) (sleeps : List Nat) :
    Except String A × Nat × List Nat :=
  match op attempt with
  | .ok value => (.ok value, attempt + 1, sleeps)
  | .error e =>
      match rem with
      | 0 => (.error e, attempt + 1, sleeps)
      | rem' + 1 =>
          retryGo op (attempt + 1) (delay_ms * 2 % 2 ^ 32) rem'
            (sleeps ++ [delay_ms])

/-- Embedding of retry_with_backoff (error_handler.rs lines 43-69):
attempt starts at 0 and delay_ms at initial_delay_ms, so the stopping test
attempt + 1 ≥ max_attempts initially allows max_attempts - 1 further
failures.  (For max_attempts = 0 the Rust test 1 ≥ 0 already stops after
the first call, which the truncated subtraction 0 - 1 = 0 reproduces.) -/
def retry_with_backoff {A : Type} (op : Nat → Except String A)
    (max_attempts initial_delay_ms : Nat) :
    Except String A × Nat × List Nat :=
  retryGo op 0 initial_delay_ms (max_attempts - 1) []

/-- The Result retry_with_backoff returns. -/
def retryResult {A : Type} (op : Nat → Except String A)
    (max_attempts initial_delay_ms : Nat) : Except String A :=
  (retry_with_backoff op max_attempts initial_delay_ms).1

/-- How many times retry_with_backoff invoked the operation. -/
def retryCalls {A : Type} (op : Nat → Except String A)
    (max_attempts initial_delay_ms : Nat) : Nat :=
  (retry_with_backoff op max_attempts initial_delay_ms).2.1

/-- The delays retry_with_backoff passed to the sleep primitive, in order. -/
def retrySleeps {A : Type} (op : Nat → Except String A)
    (max_attempts initial_delay_ms : Nat) : List Nat :=
  (retry_with_backoff op max_attempts initial_delay_ms).2.2

/-- The doubling schedule: n delays starting at d, each subsequent one twice
the previous (u32 wrapping). -/
def backoffSleeps (d : Nat) : Nat → List Nat
  | 0 => []
  | n + 1 => d :: backoffSleeps (d * 2 % 2 ^ 32) n

/-! ### Timer (src/utils/time_utils.rs)

The monotonic clock get_uptime_ms() is passed in explicitly as now : Nat.
u64 arithmetic is modelled by Nat under the clock-monotonicity assumption
start_time ≤ now (the timer captures start_time from the same clock, so
the u64 subtraction now - start_time never wraps). -/

structure Timer where
  start_time : Nat
  duration_ms : Nat
deriving DecidableEq, Repr

/-- Embedding of has_elapsed (time_utils.rs lines 44-47). -/
def has_elapsed (start_time_ms : Nat) (duration_ms : Nat) (now : Nat) :
    Bool :=
  now ≥ start_time_ms + duration_ms

/-- Embedding of Timer::new (time_utils.rs lines 57-62). -/
def Timer.mk_new (now duration_ms : Nat) : Timer :=
  { start_time := now, duration_ms := duration_ms }

/-- Embedding of Timer::has_expired (time_utils.rs lines 65-67). -/
def Timer.has_expired (t : Timer) (now : Nat) : Bool :=
  has_elapsed t.start_time t.duration_ms now

/-- Embedding of Timer::remaining_ms (time_utils.rs lines 70-77):
elapsed = now - start_time; 0 if elapsed ≥ duration_ms, else
duration_ms - elapsed (the cast of elapsed to u32 is exact there because
elapsed < duration_ms < 2^32). -/
def Timer.remaining_ms (t : Timer) (now : Nat) : Nat :=
  let elapsed := now - t.start_time
  if elapsed ≥ t.duration_ms then 0
  else t.duration_ms - elapsed

/-- Embedding of Timer::reset (time_utils.rs lines 80-82). -/
def Timer.reset (t : Timer) (now : Nat) : Timer :=
  { t with start_time := now }

/-! ### Main control loop (src/main.rs lines 61-100)

One iteration of the main application loop.  The mutable state is
led_state and last_button_state (main.rs lines 62-63) together with the
button controller's last_state and the physical LED levels.  The inputs of
one iteration are the raw button read and the write fault model for each
LED pin. -/

structure LoopState where
  led_state : Bool
  last_button_state : Bool
  button_last : Bool
  leds : LedState
deriving DecidableEq, Repr

/-- One iteration of the main loop (main.rs lines 68-100): poll the button
(a read error is logged and treated as not pressed, line 74); on a rising
edge of the reported value (button_pressed && !last_button_state) flip
led_state and attempt set_state, whose error is only logged; finally record
last_button_state = button_pressed. -/
def loopIteration (read : Except String Bool) (f1 f2 : Bool → Bool)
    (st : LoopState) : LoopState :=
  let p := is_pressed read st.button_last
  let button_pressed := match p.1 with
    | .ok pressed => pressed
    | .error _ => false
  let st1 := { st with button_last := p.2 }
  let st2 :=
    if button_pressed && !st1.last_button_state then
      let led_state' := !st1.led_state
      let w := set_state f1 f2 st1.leds led_state'
      { st1 with led_state := led_state', leds := w.2 }
    else st1
  { st2 with last_button_state := button_pressed }

/-! ### wait_for_press (src/peripherals/button.rs lines 65-80)

The loop polls is_pressed, returns Ok(true) when a poll reports true,
propagates any poll error, and returns Ok(false) once the uptime clock
read after a poll exceeds start_time + timeout_ms.  The raw read of the
i-th poll is reads i, and clock i is the uptime sampled by the i-th
iteration's time check (the 10ms FreeRtos sleep runs between successive
iterations).  The recursion is bounded by an explicit fuel; fuelOut is a
modelling artifact shown unreachable for sufficient fuel under a clock
that advances by at least 10ms per sleep. -/

inductive WaitResult where
  | ok (b : Bool)
  | err (msg : String)
  | fuelOut
deriving DecidableEq, Repr

/-- The loop of wait_for_press: iteration index i, current last_state of
the debouncer, remaining fuel. -/
def waitGo (reads : Nat → Except String Bool) (clock : Nat → Nat)
    (start_time timeout_ms : Nat) :
    Nat → Nat → Bool → WaitResult
  | 0, _, _ => .fuelOut
  | fuel + 1, i, last_state =>
      match is_pressed (reads i) last_state with
      | (.error e, _) => .err e
      | (.ok pressed, last') =>
          if pressed then .ok true
          else if clock i - start_time > timeout_ms then .ok false
          else waitGo reads clock start_time timeout_ms fuel (i + 1) last'

/-- Embedding of wait_for_press with an explicit fuel bound. -/
def wait_for_press (reads : Nat → Except String Bool) (clock : Nat → Nat)
    (start_time timeout_ms : Nat) (last_state : Bool) (fuel : Nat) :
    WaitResult :=
  waitGo reads clock start_time timeout_ms fuel 0 last_state

/-! ## Lemmas about the debounced poll -/

/-- Polling a constant raw level equal to the stored state reports false on
every sample and leaves the state unchanged. -/
lemma pollSeq_const (n : Nat) (v : Bool) :
    pollSeq (List.replicate n v) v = (List.replicate n (Except.ok false), v) := by
  induction n with
  | zero => rfl
  | succ n ih => simp [List.replicate_succ, pollSeq, is_pressed, ih]

/-- One nonempty constant run: the first sample reports the new level when
it differs from the stored state (hence true only for a rising edge), and
every later sample reports false. -/
lemma pollSeq_replicate_succ (n : Nat) (v s : Bool) :
    pollSeq (List.replicate (n + 1) v) s =
      (Except.ok (v && !s) :: List.replicate n (Except.ok false), v) := by
  cases v <;> cases s <;>
    simp [List.replicate_succ, pollSeq, is_pressed, pollSeq_const]

/-! ## Claim theorems: debounced button -/

/-- C1 (amended): feeding the raw level sequence
[Released, Pressed, Pressed, Released, Pressed] to successive polls of
ButtonController::is_pressed starting from last observed level Released
yields the reported sequence [false, true, false, false, true]: a change to
Pressed is reported as Ok(true), a change to Released updates the stored
level but is reported as Ok(false), and an unchanged level reports
Ok(false). -/
theorem edge_detection_sequence :
    pollSeq [false, true, true, false, true] false =
      ([.ok false, .ok true, .ok false, .ok false, .ok true], true) := by
  decide

/-- C1 counterexample: on the raw sequence
[Released, Pressed, Pressed, Released, Pressed] with initial state
Released, the reported sequence is neither [true, false, true, true] as the
claim states (under either alignment of the five polls with the four
claimed values), and the genuine falling change at the fourth poll is
reported as Ok(false), so not every genuine level change is reported. -/
theorem edge_detection_claimed_sequence_false :
    (pollSeq [false, true, true, false, true] false).1 ≠
      [.ok true, .ok false, .ok true, .ok true] ∧
    (pollSeq [false, true, true, false, true] false).1.drop 1 ≠
      [.ok true, .ok false, .ok true, .ok true] ∧
    (pollSeq [false, true, true, false, true] false).1.getD 3 (.ok false) =
      .ok false := by
  decide

/-- C5: on a run of identical consecutive raw levels, a transition (Ok true)
is reported at most once, every poll after the first reports Ok(false), and
if the run equals the stored state every poll reports Ok(false). -/
theorem debounce_idempotent (n : Nat) (v s : Bool) :
    (pollSeq (List.replicate n v) s).1.count (Except.ok true) ≤ 1 ∧
    (pollSeq (List.replicate n v) s).1.tail =
      List.replicate (n - 1) (Except.ok false) ∧
    (v = s →
      (pollSeq (List.replicate n v) s).1 =
        List.replicate n (Except.ok false)) := by
  cases n with
  | zero => simp [pollSeq]
  | succ n =>
      rw [pollSeq_replicate_succ]
      refine ⟨?_, by simp, ?_⟩
      · have hz : (List.replicate n ((Except.ok false) : Except String Bool)).count
            (Except.ok true) = 0 := by
          rw [List.count_eq_zero]
          simp
        cases v <;> cases s <;> simp [List.count_cons, hz]
      · intro h
        subst h
        simp [List.replicate_succ]

/-- C5 witness: three identical samples equal to the stored state report
Ok(false) three times. -/
theorem debounce_idempotent_witness :
    (pollSeq (List.replicate 3 true) true).1 =
      List.replicate 3 (Except.ok false) :=
  (debounce_idempotent 3 true true).2.2 rfl

/-- C6: a hardware read failure is surfaced immediately (as the mapped
error message) and leaves last_state unchanged, for every prior state and
every driver error. -/
theorem poll_error_preserves_state (e : String) (last_state : Bool) :
    is_pressed (.error e) last_state =
      (.error "Button state reading failed", last_state) := rfl

/-- C10: when the raw level differs from the stored state, the returned
boolean equals the new level, so Ok(true) is returned exactly on a rising
edge (new level pressed, stored level released) and a transition to
released is reported as Ok(false), indistinguishable from no transition. -/
theorem poll_reports_new_level (current_state last_state : Bool) :
    (current_state ≠ last_state →
      is_pressed (.ok current_state) last_state =
        (.ok current_state, current_state)) ∧
    ((is_pressed (.ok current_state) last_state).1 = .ok true ↔
      current_state = true ∧ last_state = false) ∧
    (current_state = false →
      (is_pressed (.ok current_state) last_state).1 = .ok false) := by
  revert current_state last_state
  decide

/-- C10 witness: a transition to released is reported as Ok(false) while
updating the stored state. -/
theorem poll_reports_new_level_witness :
    is_pressed (.ok false) true = (.ok false, false) :=
  (poll_reports_new_level false true).1 (by decide)

/-! ## Claim theorems: LED actuator set -/

/-- C4: set_state writes LED1 then LED2; on success both outputs read back
as the requested level; a failing first write returns its error with no
output changed; a failing second write returns its error with LED1 already
at the new level (no rollback). -/
theorem set_state_order_and_errors (f1 f2 : Bool → Bool) (st : LedState)
    (L : Bool) :
    ((set_state f1 f2 st L).1.isOk = true →
      get_led1_state (set_state f1 f2 st L).2 = L ∧
      get_led2_state (set_state f1 f2 st L).2 = L) ∧
    (f1 L = true →
      set_state f1 f2 st L = (.error "LED1 state setting failed", st)) ∧
    (f1 L = false → f2 L = true →
      set_state f1 f2 st L =
        (.error "LED2 state setting failed", { st with led1 := L })) := by
  cases h1 : f1 L <;> cases h2 : f2 L <;>
    simp [set_state, set_led1, set_led2, h1, h2, get_led1_state,
      get_led2_state, Except.isOk, Except.toBool]

/-- C4 witness: with a healthy LED1 pin and a failing LED2 pin, set_state
stops at the LED2 error and leaves LED1 at the new level. -/
theorem set_state_order_and_errors_witness :
    set_state (fun _ => false) (fun b => b) ⟨false, false⟩ true =
      (.error "LED2 state setting failed", ⟨true, false⟩) :=
  (set_state_order_and_errors (fun _ => false) (fun b => b)
    ⟨false, false⟩ true).2.2 rfl rfl

/-! ## Lemmas about retry_with_backoff -/

lemma backoffSleeps_length (n d : Nat) :
    (backoffSleeps d n).length = n := by
  induction n generalizing d with
  | zero => rfl
  | succ n ih => simp [backoffSleeps, ih]

/-- One-step unfolding: a successful call returns at once. -/
lemma retryGo_step_ok {A : Type} (op : Nat → Except String A)
    (attempt delay_ms rem : Nat) (s : List Nat) (v : A)
    (h : op attempt = .ok v) :
    retryGo op attempt delay_ms rem s = (.ok v, attempt + 1, s) := by
  rw [retryGo.eq_def, h]

/-- One-step unfolding: a failure with no retries left propagates. -/
lemma retryGo_step_err_zero {A : Type} (op : Nat → Except String A)
    (attempt delay_ms : Nat) (s : List Nat) (e : String)
    (h : op attempt = .error e) :
    retryGo op attempt delay_ms 0 s = (.error e, attempt + 1, s) := by
  rw [retryGo.eq_def, h]

/-- One-step unfolding: a failure with retries left sleeps delay_ms,
doubles the delay and tries again. -/
lemma retryGo_step_err_succ {A : Type} (op : Nat → Except String A)
    (attempt delay_ms rem : Nat) (s : List Nat) (e : String)
    (h : op attempt = .error e) :
    retryGo op attempt delay_ms (rem + 1) s =
      retryGo op (attempt + 1) (delay_ms * 2 % 2 ^ 32) rem
        (s ++ [delay_ms]) := by
  rw [retryGo.eq_def, h]

/-- If every call the stopping test still allows fails, the loop performs
all of them, returns the last error and sleeps the doubling schedule
between consecutive calls. -/
lemma retryGo_all_fail {A : Type} (op : Nat → Except String A) :
    ∀ (rem attempt delay_ms : Nat) (s : List Nat),
      (∀ i, attempt ≤ i → i ≤ attempt + rem → ∃ e, op i = .error e) →
      retryGo op attempt delay_ms rem s =
        (op (attempt + rem), attempt + rem + 1,
          s ++ backoffSleeps delay_ms rem) := by
  intro rem
  induction rem with
  | zero =>
      intro attempt delay_ms s h
      obtain ⟨e, he⟩ := h attempt le_rfl (by omega)
      rw [retryGo_step_err_zero op attempt delay_ms s e he]
      simp [he, backoffSleeps]
  | succ rem ih =>
      intro attempt delay_ms s h
      obtain ⟨e, he⟩ := h attempt le_rfl (by omega)
      have step := ih (attempt + 1) (delay_ms * 2 % 2 ^ 32) (s ++ [delay_ms])
        (fun i hi hle => h i (by omega) (by omega))
      have h1 : attempt + 1 + rem = attempt + (rem + 1) := by omega
      rw [h1] at step
      rw [retryGo_step_err_succ op attempt delay_ms rem s e he, step]
      simp [backoffSleeps]

/-- If the calls before index k fail, the call at k succeeds and k is still
within the allowed attempts, the loop returns the success of call k after
exactly k + 1 invocations, sleeping the doubling schedule between them. -/
lemma retryGo_first_ok {A : Type} (op : Nat → Except String A) (k : Nat)
    (hok : (op k).isOk = true) :
    ∀ (rem attempt delay_ms : Nat) (s : List Nat),
      attempt ≤ k → k ≤ attempt + rem →
      (∀ i, attempt ≤ i → i < k → ∃ e, op i = .error e) →
      retryGo op attempt delay_ms rem s =
        (op k, k + 1, s ++ backoffSleeps delay_ms (k - attempt)) := by
  have hval : ∃ v, op k = .ok v := by
    rcases hk : op k with e | v
    · rw [hk] at hok
      simp [Except.isOk, Except.toBool] at hok
    · exact ⟨v, rfl⟩
  obtain ⟨v, hv⟩ := hval
  intro rem
  induction rem with
  | zero =>
      intro attempt delay_ms s h1 h2 _
      have hak : attempt = k := by omega
      subst hak
      rw [retryGo_step_ok op attempt delay_ms 0 s v hv]
      simp [hv, backoffSleeps]
  | succ rem ih =>
      intro attempt delay_ms s h1 h2 hfail
      rcases Nat.eq_or_lt_of_le h1 with hak | hak
      · subst hak
        rw [retryGo_step_ok op attempt delay_ms (rem + 1) s v hv]
        simp [hv, backoffSleeps]
      · obtain ⟨e, he⟩ := hfail attempt le_rfl hak
        have step := ih (attempt + 1) (delay_ms * 2 % 2 ^ 32) (s ++ [delay_ms])
          (by omega) (by omega) (fun i hi hik => hfail i (by omega) hik)
        have h3 : k - attempt = (k - (attempt + 1)) + 1 := by omega
        rw [retryGo_step_err_succ op attempt delay_ms rem s e he, step, h3]
        simp [backoffSleeps]

/-- In general the loop makes at least one call and sleeps exactly once
between consecutive calls, with the doubling schedule. -/
lemma retryGo_count_sleeps {A : Type} (op : Nat → Except String A) :
    ∀ (rem attempt delay_ms : Nat) (s : List Nat),
      attempt + 1 ≤ (retryGo op attempt delay_ms rem s).2.1 ∧
      (retryGo op attempt delay_ms rem s).2.2 =
        s ++ backoffSleeps delay_ms
          ((retryGo op attempt delay_ms rem s).2.1 - attempt - 1) := by
  intro rem
  induction rem with
  | zero =>
      intro attempt delay_ms s
      rcases h0 : op attempt with e | v
      · rw [retryGo_step_err_zero op attempt delay_ms s e h0]
        refine ⟨by simp, ?_⟩
        have h2 : attempt + 1 - attempt - 1 = 0 := by omega
        simp [h2, backoffSleeps]
      · rw [retryGo_step_ok op attempt delay_ms 0 s v h0]
        refine ⟨by simp, ?_⟩
        have h2 : attempt + 1 - attempt - 1 = 0 := by omega
        simp [h2, backoffSleeps]
  | succ rem ih =>
      intro attempt delay_ms s
      rcases h0 : op attempt with e | v
      · rw [retryGo_step_err_succ op attempt delay_ms rem s e h0]
        obtain ⟨s1, s2⟩ :=
          ih (attempt + 1) (delay_ms * 2 % 2 ^ 32) (s ++ [delay_ms])
        refine ⟨by omega, ?_⟩
        rw [s2]
        have h3 : (retryGo op (attempt + 1) (delay_ms * 2 % 2 ^ 32) rem
            (s ++ [delay_ms])).2.1 - attempt - 1 =
            ((retryGo op (attempt + 1) (delay_ms * 2 % 2 ^ 32) rem
              (s ++ [delay_ms])).2.1 - (attempt + 1) - 1) + 1 := by
          omega
        rw [h3]
        simp [backoffSleeps]
      · rw [retryGo_step_ok op attempt delay_ms (rem + 1) s v h0]
        refine ⟨by simp, ?_⟩
        have h2 : attempt + 1 - attempt - 1 = 0 := by omega
        simp [h2, backoffSleeps]

/-! ## Claim theorems: retry_with_backoff -/

/-- C2: for max_attempts ≥ 1, if the calls before index k fail and the call
at k succeeds (k being the 0-indexed first success), retry_with_backoff
invokes the operation exactly min (k + 1) max_attempts times and, when
k < max_attempts, returns the success of call k; if the first max_attempts
calls all fail it invokes the operation exactly max_attempts times and
returns the error of the last call. -/
theorem retry_invocation_count {A : Type} (op : Nat → Except String A)
    (max_attempts initial_delay_ms : Nat) (hmax : 1 ≤ max_attempts) :
    (∀ k, (∀ i, i < k → ∃ e, op i = .error e) → (op k).isOk = true →
      retryCalls op max_attempts initial_delay_ms =
        min (k + 1) max_attempts ∧
      (k < max_attempts →
        retryResult op max_attempts initial_delay_ms = op k)) ∧
    ((∀ i, i < max_attempts → ∃ e, op i = .error e) →
      retryCalls op max_attempts initial_delay_ms = max_attempts ∧
      retryResult op max_attempts initial_delay_ms =
        op (max_attempts - 1)) := by
  constructor
  · intro k hfail hok
    rcases Nat.lt_or_ge k max_attempts with hk | hk
    · have h := retryGo_first_ok op k hok (max_attempts - 1) 0
        initial_delay_ms [] (Nat.zero_le k) (by omega)
        (fun i _ hik => hfail i hik)
      constructor
      · simp [retryCalls, retry_with_backoff, h]
        omega
      · intro _
        simp [retryResult, retry_with_backoff, h]
    · have h := retryGo_all_fail op (max_attempts - 1) 0 initial_delay_ms []
        (fun i _ hle => hfail i (by omega))
      constructor
      · simp [retryCalls, retry_with_backoff, h]
        omega
      · intro hlt
        omega
  · intro hfail
    have h := retryGo_all_fail op (max_attempts - 1) 0 initial_delay_ms []
      (fun i _ hle => hfail i (by omega))
    constructor
    · simp [retryCalls, retry_with_backoff, h]
      omega
    · simp [retryResult, retry_with_backoff, h]

/-- C2 witness: with an operation failing on its 1st call and succeeding on
its 2nd and max_attempts = 3, exactly 2 invocations happen and the success
is returned. -/
theorem retry_invocation_count_witness :
    retryCalls (fun i => if i = 0 then (Except.error "boom" : Except String Nat)
      else .ok 7) 3 100 = 2 ∧
    retryResult (fun i => if i = 0 then (Except.error "boom" : Except String Nat)
      else .ok 7) 3 100 = .ok 7 := by
  have h := (retry_invocation_count
      (fun i => if i = 0 then (Except.error "boom" : Except String Nat)
        else .ok 7) 3 100 (by decide)).1 1
    (fun i hi => ⟨"boom", by
      have h0 : i = 0 := by omega
      subst h0
      rfl⟩)
    (by decide)
  exact ⟨by simpa using h.1, by simpa using h.2 (by decide)⟩

/-- C3: the recorded sleep delays are exactly the doubling schedule of
length one less than the number of invocations (so no sleep after the final
or a successful attempt); max_attempts = 1 never sleeps; three failing
attempts with initial delay 100 sleep [100, 200]. -/
theorem retry_sleep_schedule {A : Type} (op : Nat → Except String A)
    (max_attempts initial_delay_ms : Nat) :
    retrySleeps op max_attempts initial_delay_ms =
      backoffSleeps initial_delay_ms
        (retryCalls op max_attempts initial_delay_ms - 1) ∧
    (retrySleeps op max_attempts initial_delay_ms).length =
      retryCalls op max_attempts initial_delay_ms - 1 ∧
    (max_attempts = 1 → retrySleeps op max_attempts initial_delay_ms = []) ∧
    ((∀ i, i < 3 → ∃ e, op i = .error e) →
      retrySleeps op 3 100 = [100, 200]) := by
  have hg := retryGo_count_sleeps op (max_attempts - 1) 0 initial_delay_ms []
  refine ⟨?_, ?_, ?_, ?_⟩
  · simpa [retrySleeps, retryCalls, retry_with_backoff] using hg.2
  · have h1 : retrySleeps op max_attempts initial_delay_ms =
        backoffSleeps initial_delay_ms
          (retryCalls op max_attempts initial_delay_ms - 1) := by
      simpa [retrySleeps, retryCalls, retry_with_backoff] using hg.2
    rw [h1, backoffSleeps_length]
  · intro h1
    subst h1
    rcases h0 : op 0 with e | v <;>
      simp [retrySleeps, retry_with_backoff, retryGo, h0]
  · intro hfail
    have h := retryGo_all_fail op 2 0 100 []
      (fun i _ hle => hfail i (by omega))
    simp [retrySleeps, retry_with_backoff, h, backoffSleeps]

/-- C3 witness: three failing attempts with initial delay 100 record
exactly the sleeps [100, 200]. -/
theorem retry_sleep_schedule_witness :
    retrySleeps (fun _ => (Except.error "x" : Except String Nat)) 3 100 =
      [100, 200] :=
  (retry_sleep_schedule (fun _ => (Except.error "x" : Except String Nat))
    3 100).2.2.2 (fun _ _ => ⟨"x", rfl⟩)

/-! ## Claim theorems: Timer -/

/-- C7: under a monotonic clock that never ran backwards since the timer
was created, remaining_ms is duration_ms minus elapsed, clamped at 0 and
never underflowing (also after expiry); it never increases between calls;
and it is 0 at every instant at which has_expired is true, expiry being
permanent. -/
theorem timer_remaining_spec (t : Timer) (now1 now2 : Nat)
    (h0 : t.start_time ≤ now1) (h12 : now1 ≤ now2) :
    (t.duration_ms ≤ now1 - t.start_time → t.remaining_ms now1 = 0) ∧
    (now1 - t.start_time ≤ t.duration_ms →
      t.remaining_ms now1 = t.duration_ms - (now1 - t.start_time)) ∧
    t.remaining_ms now2 ≤ t.remaining_ms now1 ∧
    (t.has_expired now1 = true →
      t.remaining_ms now1 = 0 ∧ t.has_expired now2 = true ∧
      t.remaining_ms now2 = 0) := by
  simp only [Timer.remaining_ms, Timer.has_expired, has_elapsed, ge_iff_le,
    decide_eq_true_eq]
  split_ifs <;> refine ⟨?_, ?_, ?_, ?_⟩ <;> omega

/-- C7 witness: a 100ms timer started at 0, queried at 30 and then at
150, has not gained remaining time. -/
theorem timer_remaining_spec_witness :
    Timer.remaining_ms ⟨0, 100⟩ 150 ≤ Timer.remaining_ms ⟨0, 100⟩ 30 :=
  (timer_remaining_spec ⟨0, 100⟩ 30 150 (by decide) (by decide)).2.2.1

/-! ## Claim theorems: main control loop -/

/-- C8: in one loop iteration, a failed button read is treated as "not
pressed" (no toggle, no actuator write, loop state otherwise preserved)
and the loop continues; on a rising edge of the reported value the
led_state toggle is flipped and set_state is attempted with the flipped
value, and if that write fails the toggle stays flipped while the physical
outputs are left as set_state left them (for a first-write failure,
unchanged, diverging from led_state). -/
theorem control_loop_iteration_spec (st : LoopState) (f1 f2 : Bool → Bool)
    (read : Except String Bool) :
    (∀ e, read = .error e →
      loopIteration read f1 f2 st = { st with last_button_state := false }) ∧
    (read = .ok true → st.button_last = false →
      st.last_button_state = false →
      (loopIteration read f1 f2 st).led_state = !st.led_state ∧
      (loopIteration read f1 f2 st).leds =
        (set_state f1 f2 st.leds (!st.led_state)).2 ∧
      (loopIteration read f1 f2 st).last_button_state = true ∧
      (loopIteration read f1 f2 st).button_last = true ∧
      (f1 (!st.led_state) = true →
        (loopIteration read f1 f2 st).leds = st.leds)) := by
  constructor
  · intro e he
    subst he
    rfl
  · intro hr hb hl
    subst hr
    refine ⟨?_, ?_, ?_, ?_, ?_⟩
    · simp [loopIteration, is_pressed, hb, hl]
    · simp [loopIteration, is_pressed, hb, hl]
    · simp [loopIteration, is_pressed, hb, hl]
    · simp [loopIteration, is_pressed, hb, hl]
    · intro hw
      simp [loopIteration, is_pressed, hb, hl, set_state, set_led1, hw]

/-- C8 witness: a read failure leaves the whole loop state unchanged (its
last_button_state already being false). -/
theorem control_loop_iteration_spec_witness :
    loopIteration (.error "x") (fun _ => false) (fun _ => false)
      ⟨false, false, false, ⟨false, false⟩⟩ =
      ⟨false, false, false, ⟨false, false⟩⟩ :=
  (control_loop_iteration_spec ⟨false, false, false, ⟨false, false⟩⟩
    (fun _ => false) (fun _ => false) (.error "x")).1 "x" rfl

/-! ## Lemmas about wait_for_press -/

/-- One-step unfolding of the wait loop. -/
lemma waitGo_succ (reads : Nat → Except String Bool) (clock : Nat → Nat)
    (start_time timeout_ms fuel i : Nat) (last_state : Bool) :
    waitGo reads clock start_time timeout_ms (fuel + 1) i last_state =
      match is_pressed (reads i) last_state with
      | (.error e, _) => .err e
      | (.ok pressed, last') =>
          if pressed then .ok true
          else if clock i - start_time > timeout_ms then .ok false
          else waitGo reads clock start_time timeout_ms fuel (i + 1) last' :=
  rfl

/-- With the 10ms inter-poll sleep, the clock at the i-th check is at
least 10 * i past the start. -/
lemma waitGo_clock_lower (clock : Nat → Nat) (start_time : Nat)
    (hstart : start_time ≤ clock 0)
    (hstep : ∀ i, clock i + 10 ≤ clock (i + 1)) :
    ∀ i, start_time + 10 * i ≤ clock i := by
  intro i
  induction i with
  | zero => simpa using hstart
  | succ i ih =>
      have := hstep i
      omega

/-- The wait loop never exhausts fuel timeout_ms / 10 + 2: it returns
within that many polls. -/
lemma waitGo_terminates (reads : Nat → Except String Bool)
    (clock : Nat → Nat) (start_time timeout_ms : Nat)
    (hc : ∀ i, start_time + 10 * i ≤ clock i) :
    ∀ (fuel i : Nat) (last_state : Bool),
      timeout_ms / 10 + 2 ≤ fuel + i →
      (i = 0 ∨ 10 * (i - 1) ≤ timeout_ms) →
      waitGo reads clock start_time timeout_ms fuel i last_state ≠
        .fuelOut := by
  intro fuel
  induction fuel with
  | zero =>
      intro i last_state h1 h2
      exfalso
      rcases h2 with h2 | h2 <;> omega
  | succ fuel ih =>
      intro i last_state h1 h2
      have hci := hc i
      rcases hp : is_pressed (reads i) last_state with ⟨r, last'⟩
      rw [waitGo_succ, hp]
      rcases r with e | pressed
      · simp
      · cases pressed
        · simp only [Bool.false_eq_true, if_false]
          split_ifs with hto
          · simp
          · exact ih (i + 1) last' (by omega) (Or.inr (by omega))
        · simp

/-- If every raw read equals the stored state, no poll ever reports a
transition, so a terminating wait returns Ok(false). -/
lemma waitGo_no_transition (reads : Nat → Except String Bool)
    (clock : Nat → Nat) (start_time timeout_ms : Nat) (last_state : Bool)
    (hreads : ∀ i, reads i = .ok last_state) :
    ∀ (fuel i : Nat),
      waitGo reads clock start_time timeout_ms fuel i last_state ≠
        .fuelOut →
      waitGo reads clock start_time timeout_ms fuel i last_state =
        .ok false := by
  intro fuel
  induction fuel with
  | zero =>
      intro i h
      exact absurd rfl h
  | succ fuel ih =>
      intro i h
      rw [waitGo_succ, hreads i] at h ⊢
      simp only [is_pressed, bne_self_eq_false, Bool.false_eq_true,
        if_false] at h ⊢
      split_ifs at h ⊢ with hto
      · rfl
      · exact ih (i + 1) h

/-! ## Claim theorem: wait_for_press -/

/-- C9: for any timeout, under a clock that is monotone from call start and
advances at least 10ms across each inter-poll sleep, wait_for_press
terminates within timeout_ms / 10 + 2 polls; a first poll reporting a
transition returns Ok(true) at once; a first poll failing propagates the
read error; and if no poll ever reports a transition it returns Ok(false)
without error once the timeout has elapsed. -/
theorem wait_for_press_spec (reads : Nat → Except String Bool)
    (clock : Nat → Nat) (start_time timeout_ms : Nat) (last_state : Bool)
    (hstart : start_time ≤ clock 0)
    (hstep : ∀ i, clock i + 10 ≤ clock (i + 1)) :
    wait_for_press reads clock start_time timeout_ms last_state
        (timeout_ms / 10 + 2) ≠ .fuelOut ∧
    (∀ e, reads 0 = .error e →
      wait_for_press reads clock start_time timeout_ms last_state
          (timeout_ms / 10 + 2) = .err "Button state reading failed") ∧
    ((is_pressed (reads 0) last_state).1 = .ok true →
      wait_for_press reads clock start_time timeout_ms last_state
          (timeout_ms / 10 + 2) = .ok true) ∧
    ((∀ i, reads i = .ok last_state) →
      wait_for_press reads clock start_time timeout_ms last_state
          (timeout_ms / 10 + 2) = .ok false) := by
  have hc : ∀ i, start_time + 10 * i ≤ clock i :=
    waitGo_clock_lower clock start_time hstart hstep
  have hterm := waitGo_terminates reads clock start_time timeout_ms hc
    (timeout_ms / 10 + 2) 0 last_state (by omega) (Or.inl rfl)
  refine ⟨hterm, ?_, ?_, ?_⟩
  · intro e he
    show waitGo reads clock start_time timeout_ms
      (timeout_ms / 10 + 1 + 1) 0 last_state = _
    rw [waitGo_succ, he]
    simp [is_pressed]
  · intro hok
    show waitGo reads clock start_time timeout_ms
      (timeout_ms / 10 + 1 + 1) 0 last_state = _
    rcases hp : is_pressed (reads 0) last_state with ⟨r, last'⟩
    rw [hp] at hok
    simp only at hok
    subst hok
    rw [waitGo_succ, hp]
    simp
  · intro hreads
    exact waitGo_no_transition reads clock start_time timeout_ms last_state
      hreads (timeout_ms / 10 + 2) 0 hterm

/-- C9 witness: with no transition ever reported and a clock advancing
10ms per poll, a zero-timeout wait returns Ok(false). -/
theorem wait_for_press_spec_witness :
    wait_for_press (fun _ => .ok false) (fun i => 10 * i) 0 0 false 2 =
      .ok false :=
  (wait_for_press_spec (fun _ => .ok false) (fun i => 10 * i) 0 0 false
    (Nat.le_refl 0)
    (fun i => show 10 * i + 10 ≤ 10 * (i + 1) by omega)).2.2.2
    (fun _ => rfl)

end Esp32
